import Mathlib

/-!
Verification of the miru custom-validation webhook service
(source: src/flask/app.py) against its natural-language specification.

The embedding models:
- the verdict data model (ParameterValidation, ConfigInstanceValidation,
  DeploymentValidation) and its serialization DeploymentValidation.to_dict;
- the validation engine validate_deployment, with Python exceptions
  rendered as the error branch of Except;
- the webhook endpoint and the deployment handler, with the external
  collaborators (signature verification, event unwrapping, the platform
  API) supplied as an explicit environment, and the outbound API calls
  recorded in a trace.
-/

/-- Input config instance as used by the code: only the id and the
(nullable) content are read. The content is opaque to the engine. -/
structure ConfigInstance where
  id : String
  content : Option String
deriving DecidableEq

structure ParameterValidation where
  message : String
  path : List String
deriving DecidableEq

structure ConfigInstanceValidation where
  id : String
  message : String
  parameters : List ParameterValidation
deriving DecidableEq

structure DeploymentValidation where
  is_valid : Bool
  message : String
  config_instances : List ConfigInstanceValidation
deriving DecidableEq

/-- JSON-like nested mapping values, the codomain of to_dict. -/
inductive DictVal where
  | str : String → DictVal
  | bool : Bool → DictVal
  | list : List DictVal → DictVal
  | obj : List (String × DictVal) → DictVal

/-- DeploymentValidation.to_dict from the source: the exact nested
mapping with keys is_valid, message, config_instances / id, message,
parameters / message, path. -/
def DeploymentValidation.to_dict (v : DeploymentValidation) : DictVal :=
  .obj [
    ("is_valid", .bool v.is_valid),
    ("message", .str v.message),
    ("config_instances", .list (v.config_instances.map (fun ci =>
      .obj [
        ("id", .str ci.id),
        ("message", .str ci.message),
        ("parameters", .list (ci.parameters.map (fun p =>
          .obj [
            ("message", .str p.message),
            ("path", .list (p.path.map DictVal.str))
          ])))
      ])))
  ]

/-- The per-instance verdict built in the loop body of
validate_deployment (the fixed sample messages from the source). -/
def validate_single (ci : ConfigInstance) : ConfigInstanceValidation :=
  { id := ci.id,
    message := "Error message shown on the config instance level in the UI",
    parameters := [
      { message := "Error message shown on the parameter level in the UI",
        path := ["path", "to", "invalid", "parameter"] }
    ] }

/-- The loop of validate_deployment: build one ConfigInstanceValidation
per instance, in order, raising ValueError on a null content. -/
def validate_instances : List ConfigInstance → Except String (List ConfigInstanceValidation)
  | [] => .ok []
  | ci :: rest =>
    match ci.content with
    | none => .error "Config instance content is None"
    | some _ =>
      match validate_instances rest with
      | .error e => .error e
      | .ok tail => .ok (validate_single ci :: tail)

/-- validate_deployment from the source: run the loop, then wrap the
per-instance verdicts in a DeploymentValidation with is_valid true and
the fixed deployment-level message. -/
def validate_deployment (config_instances : List ConfigInstance) :
    Except String DeploymentValidation :=
  match validate_instances config_instances with
  | .error e => .error e
  | .ok cfg_inst_validations =>
    .ok { is_valid := true,
          message := "Error message shown on the deployment level in the UI",
          config_instances := cfg_inst_validations }

theorem validate_instances_ok (cis : List ConfigInstance)
    (h : ∀ ci ∈ cis, ci.content ≠ none) :
    validate_instances cis = .ok (cis.map validate_single) := by
  induction cis with
  | nil => rfl
  | cons ci rest ih =>
    rcases hco : ci.content with _ | c
    · exact absurd hco (h ci (List.mem_cons_self _ _))
    · simp [validate_instances, hco,
        ih (fun x hx => h x (List.mem_cons_of_mem _ hx))]

theorem validate_instances_err (cis : List ConfigInstance)
    (h : ∃ ci ∈ cis, ci.content = none) :
    validate_instances cis = .error "Config instance content is None" := by
  induction cis with
  | nil => simp at h
  | cons ci rest ih =>
    rcases hco : ci.content with _ | c
    · simp [validate_instances, hco]
    · rcases h with ⟨x, hx, hxc⟩
      rcases List.mem_cons.mp hx with rfl | hx
      · rw [hco] at hxc
        cases hxc
      · simp [validate_instances, hco, ih ⟨x, hx, hxc⟩]

theorem validate_deployment_ok (cis : List ConfigInstance)
    (h : ∀ ci ∈ cis, ci.content ≠ none) :
    validate_deployment cis =
      .ok { is_valid := true,
            message := "Error message shown on the deployment level in the UI",
            config_instances := cis.map validate_single } := by
  simp [validate_deployment, validate_instances_ok cis h]

/-- Structural parser for a string leaf. -/
def parse_string : DictVal → Option String
  | .str s => some s
  | _ => none

/-- Parse every element of a list, failing if any element fails. -/
def parse_all {α : Type} (f : DictVal → Option α) : List DictVal → Option (List α)
  | [] => some []
  | d :: ds =>
    match f d, parse_all f ds with
    | some a, some rest => some (a :: rest)
    | _, _ => none

/-- Structural parser for the parameters entries of the mapping. -/
def parse_parameter : DictVal → Option ParameterValidation
  | .obj [("message", .str m), ("path", .list ps)] =>
    (parse_all parse_string ps).map (fun path => { message := m, path := path })
  | _ => none

/-- Structural parser for the config_instances entries of the mapping. -/
def parse_config_instance_validation : DictVal → Option ConfigInstanceValidation
  | .obj [("id", .str i), ("message", .str m), ("parameters", .list ps)] =>
    (parse_all parse_parameter ps).map
      (fun params => { id := i, message := m, parameters := params })
  | _ => none

/-- Structural parser for the outer deployment-validation mapping. -/
def parse_deployment_validation : DictVal → Option DeploymentValidation
  | .obj [("is_valid", .bool b), ("message", .str m), ("config_instances", .list cs)] =>
    (parse_all parse_config_instance_validation cs).map
      (fun cis => { is_valid := b, message := m, config_instances := cis })
  | _ => none

theorem parse_all_map {α : Type} (f : DictVal → Option α) (g : α → DictVal)
    (hfg : ∀ a, f (g a) = some a) (l : List α) :
    parse_all f (l.map g) = some l := by
  induction l with
  | nil => rfl
  | cons a as ih => simp [parse_all, hfg, ih]

theorem parse_parameter_rt (p : ParameterValidation) :
    parse_parameter (.obj [
      ("message", .str p.message),
      ("path", .list (p.path.map DictVal.str))]) = some p := by
  simp [parse_parameter, parse_all_map parse_string DictVal.str (fun a => rfl)]

theorem parse_config_instance_validation_rt (ci : ConfigInstanceValidation) :
    parse_config_instance_validation (.obj [
      ("id", .str ci.id),
      ("message", .str ci.message),
      ("parameters", .list (ci.parameters.map (fun p =>
        .obj [("message", .str p.message),
              ("path", .list (p.path.map DictVal.str))])))]) = some ci := by
  simp [parse_config_instance_validation,
    parse_all_map parse_parameter _ parse_parameter_rt]

/-- Expanded deployment snapshot as fetched from the platform; the three
expanded fields are nullable exactly as the SDK object is. -/
structure Release where
  version : String

structure Device where
  name : String

structure Deployment where
  id : String
  release : Option Release
  device : Option Device
  config_instances : Option (List ConfigInstance)

/-- The platform response to a verdict submission. -/
structure EffectResult where
  effect : String
  message : String

/-- Outbound API calls issued by the handler, recorded as a trace. -/
inductive Call where
  | retrieve (deploymentId : String)
  | submit (deploymentId : String) (verdict : DictVal)

/-- HTTP response of the endpoint. -/
structure WebhookResponse where
  status : Nat
  body : DictVal

/-- The effect_handlers dictionary from handle_validate_deployment:
lookup by effect key, returning the narrative closure when present.
The none and void narratives are the literal template strings from the
source, in which the brace-msg-brace placeholder is never interpolated. -/
def effect_handlers (effect : String) : Option (String → String) :=
  if effect = "none" then
    some (fun _msg => "The validation had no effect on the deployment: \x7bmsg\x7d")
  else if effect = "stage" then
    some (fun _msg => "The deployment was successfully approved; since the deployment required approval to be staged, it is now staged!")
  else if effect = "deploy" then
    some (fun _msg => "The deployment was successfully approved; since the deployment required approval to be deployed, it is now deploying!")
  else if effect = "reject" then
    some (fun _msg => "The deployment was successfully rejected!")
  else if effect = "void" then
    some (fun _msg => "The deployment was in an invalid state for validation: \x7bmsg\x7d")
  else
    none

/-- The effect-classification step at the end of
handle_validate_deployment: the narrative line when the effect has a
handler, otherwise the generic two-line fallback log. -/
def classify_effect (effect msg : String) : List String :=
  match effect_handlers effect with
  | some handler => [handler msg]
  | none => ["Validation effect: " ++ effect, "Validation message: " ++ msg]

/-- handle_validate_deployment from the source. The platform is an
oracle: retrieve maps a deployment id to its expanded snapshot, and
validateApi maps a submitted verdict to an EffectResult. The result is
the log lines on success (or the ValueError message), paired with the
trace of outbound calls issued. -/
def handle_validate_deployment (deploymentId : String)
    (retrieve : String → Deployment)
    (validateApi : String → DictVal → EffectResult) :
    Except String (List String) × List Call :=
  let deployment := retrieve deploymentId
  match deployment.release, deployment.config_instances, deployment.device with
  | none, _, _ => (.error "Deployment release is None", [.retrieve deploymentId])
  | some _, none, _ =>
    (.error "Deployment config instances are None", [.retrieve deploymentId])
  | some _, some _, none =>
    (.error "Deployment device is None", [.retrieve deploymentId])
  | some release, some config_instances, some device =>
    match validate_deployment config_instances with
    | .error e => (.error e, [.retrieve deploymentId])
    | .ok result =>
      let response := validateApi deployment.id result.to_dict
      (.ok (("Validating deployment to device " ++ device.name ++
              " for release " ++ release.version ++ "...") ::
            classify_effect response.effect response.message),
       [.retrieve deploymentId, .submit deployment.id result.to_dict])

/-- Environment of one inbound request: the outcome of signature
verification, the unwrapped event type and deployment id, and the
platform API oracles. -/
structure Env where
  verifyResult : Except String Unit
  eventType : String
  eventDeploymentId : String
  retrieve : String → Deployment
  validateApi : String → DictVal → EffectResult

/-- webhook_endpoint from the source: a 400 verification-failure body
when verification fails; otherwise dispatch on the event type, handling
only the deployment.validate tag and acknowledging every other tag with
a 200 no-action response. The result also records the outbound call
trace and whether the handler was invoked. -/
def webhook_endpoint (env : Env) :
    Except String WebhookResponse × List Call × Bool :=
  match env.verifyResult with
  | .error e =>
    (.ok { status := 400,
           body := .obj [("valid", .bool false), ("message", .str e),
                         ("errors", .list [])] },
     [], false)
  | .ok _ =>
    if env.eventType = "deployment.validate" then
      match handle_validate_deployment env.eventDeploymentId
              env.retrieve env.validateApi with
      | (.error e, calls) => (.error e, calls, true)
      | (.ok _, calls) =>
        (.ok { status := 200,
               body := .obj [("message",
                 .str "deployment validation handled successfully")] },
         calls, true)
    else
      (.ok { status := 200,
             body := .obj [("message", .str "no action required")] },
       [], false)

/-- C1: the claim states is_valid is true iff no instance in the result
carries failing parameter validations. The code refutes it: on an input
with one instance with non-null content, the result has is_valid true
while its instance carries a non-empty list of parameter validations. -/
theorem C1_counterexample :
    ¬ (∀ v, validate_deployment [{ id := "i1", content := some "c" }] = .ok v →
        (v.is_valid = true ↔ ∀ civ ∈ v.config_instances, civ.parameters = [])) := by
  intro hclaim
  have h := (hclaim _ (validate_deployment_ok _ (by decide))).mp rfl
  have h1 := h (validate_single { id := "i1", content := some "c" }) (by simp)
  simp [validate_single] at h1

/-- C1 amended: for inputs whose instances all have non-null content,
validate_deployment returns is_valid true unconditionally, even though
every instance in the result carries a non-empty list of parameter
validations; the stated aggregation policy is not implemented. -/
theorem C1_amended (cis : List ConfigInstance)
    (h : ∀ ci ∈ cis, ci.content ≠ none) :
    ∃ v, validate_deployment cis = .ok v ∧ v.is_valid = true ∧
      ∀ civ ∈ v.config_instances, civ.parameters ≠ [] := by
  refine ⟨_, validate_deployment_ok cis h, rfl, ?_⟩
  intro civ hciv
  rcases List.mem_map.mp hciv with ⟨ci, _, rfl⟩
  simp [validate_single]

theorem C1_amended_witness :
    ∃ v, validate_deployment [{ id := "i1", content := some "c" }] = .ok v ∧
      v.is_valid = true ∧ ∀ civ ∈ v.config_instances, civ.parameters ≠ [] :=
  C1_amended [{ id := "i1", content := some "c" }] (by decide)

/-- C2: on an input of N instances, each with non-null content,
validate_deployment returns a verdict whose config_instances list has
length N and whose i-th element carries the id of the i-th input
instance, in input order. -/
theorem C2 (cis : List ConfigInstance) (h : ∀ ci ∈ cis, ci.content ≠ none) :
    ∃ v, validate_deployment cis = .ok v ∧
      v.config_instances.length = cis.length ∧
      v.config_instances.map (fun c => c.id) = cis.map (fun c => c.id) := by
  refine ⟨_, validate_deployment_ok cis h, by simp, ?_⟩
  simp only [List.map_map]
  rfl

theorem C2_witness :
    ∃ v, validate_deployment
        [{ id := "a", content := some "x" }, { id := "b", content := some "y" }] = .ok v ∧
      v.config_instances.length =
        ([{ id := "a", content := some "x" },
          { id := "b", content := some "y" }] : List ConfigInstance).length ∧
      v.config_instances.map (fun c => c.id) =
        ([{ id := "a", content := some "x" },
          { id := "b", content := some "y" }] : List ConfigInstance).map (fun c => c.id) :=
  C2 [{ id := "a", content := some "x" }, { id := "b", content := some "y" }] (by decide)

/-- C3: if any input instance has null content, validate_deployment
raises the precondition ValueError and returns no DeploymentValidation,
partial or otherwise: the result is the bare error branch. -/
theorem C3 (cis : List ConfigInstance) (h : ∃ ci ∈ cis, ci.content = none) :
    validate_deployment cis = .error "Config instance content is None" := by
  simp [validate_deployment, validate_instances_err cis h]

theorem C3_witness :
    validate_deployment
        [{ id := "a", content := some "x" }, { id := "b", content := none }] =
      .error "Config instance content is None" :=
  C3 [{ id := "a", content := some "x" }, { id := "b", content := none }]
    ⟨{ id := "b", content := none }, by simp, rfl⟩

/-- C4: to_dict produces exactly the nested is_valid / message /
config_instances mapping mirroring the verdict, and structurally parsing
that mapping back reproduces the original verdict (round trip). -/
theorem C4 (v : DeploymentValidation) :
    v.to_dict = .obj [
      ("is_valid", .bool v.is_valid),
      ("message", .str v.message),
      ("config_instances", .list (v.config_instances.map (fun ci =>
        .obj [
          ("id", .str ci.id),
          ("message", .str ci.message),
          ("parameters", .list (ci.parameters.map (fun p =>
            .obj [("message", .str p.message),
                  ("path", .list (p.path.map DictVal.str))])))])))] ∧
    parse_deployment_validation v.to_dict = some v := by
  refine ⟨rfl, ?_⟩
  simp [DeploymentValidation.to_dict, parse_deployment_validation,
    parse_all_map parse_config_instance_validation _
      parse_config_instance_validation_rt]

/-- C9: on any input whose instances all have non-null content, the
verdict is independent of the content: is_valid is true, the
deployment-level message is the fixed string, and each instance verdict
carries exactly one ParameterValidation with the fixed message and the
fixed path. -/
theorem C9 (cis : List ConfigInstance) (h : ∀ ci ∈ cis, ci.content ≠ none) :
    ∃ v, validate_deployment cis = .ok v ∧
      v.is_valid = true ∧
      v.message = "Error message shown on the deployment level in the UI" ∧
      ∀ civ ∈ v.config_instances,
        civ.parameters = [{
          message := "Error message shown on the parameter level in the UI",
          path := ["path", "to", "invalid", "parameter"] }] := by
  refine ⟨_, validate_deployment_ok cis h, rfl, rfl, ?_⟩
  intro civ hciv
  rcases List.mem_map.mp hciv with ⟨ci, _, rfl⟩
  rfl

theorem C9_witness :
    ∃ v, validate_deployment [{ id := "i1", content := some "c" }] = .ok v ∧
      v.is_valid = true ∧
      v.message = "Error message shown on the deployment level in the UI" ∧
      ∀ civ ∈ v.config_instances,
        civ.parameters = [{
          message := "Error message shown on the parameter level in the UI",
          path := ["path", "to", "invalid", "parameter"] }] :=
  C9 [{ id := "i1", content := some "c" }] (by decide)

/-- C5: a verified event whose type tag is not deployment.validate gets
an HTTP 200 no-action response; no handler runs and no outbound call is
issued, and this path is never an error status. -/
theorem C5 (env : Env) (hv : env.verifyResult = .ok ())
    (ht : env.eventType ≠ "deployment.validate") :
    webhook_endpoint env =
      (.ok { status := 200,
             body := .obj [("message", .str "no action required")] },
       [], false) := by
  simp [webhook_endpoint, hv, ht]

theorem C5_witness :
    webhook_endpoint
      { verifyResult := .ok (), eventType := "deployment.other",
        eventDeploymentId := "d1",
        retrieve := fun _ =>
          { id := "d1", release := none, device := none,
            config_instances := none },
        validateApi := fun _ _ => { effect := "none", message := "" } } =
      (.ok { status := 200,
             body := .obj [("message", .str "no action required")] },
       [], false) :=
  C5 _ rfl (by decide)

/-- C6: when signature verification fails, the endpoint returns HTTP 400
with body valid false / message reason / errors empty, invokes no
handler and issues no outbound call. -/
theorem C6 (env : Env) (e : String) (hv : env.verifyResult = .error e) :
    webhook_endpoint env =
      (.ok { status := 400,
             body := .obj [("valid", .bool false), ("message", .str e),
                           ("errors", .list [])] },
       [], false) := by
  simp [webhook_endpoint, hv]

theorem C6_witness :
    webhook_endpoint
      { verifyResult := .error "bad signature", eventType := "deployment.validate",
        eventDeploymentId := "d1",
        retrieve := fun _ =>
          { id := "d1", release := none, device := none,
            config_instances := none },
        validateApi := fun _ _ => { effect := "none", message := "" } } =
      (.ok { status := 400,
             body := .obj [("valid", .bool false),
                           ("message", .str "bad signature"),
                           ("errors", .list [])] },
       [], false) :=
  C6 _ "bad signature" rfl

/-- C7: the effect-classification step maps each of the five enumerated
effect values to its matching narrative and falls back to the generic
two-line log for any other effect value. -/
theorem C7 (msg : String) :
    classify_effect "none" msg =
      ["The validation had no effect on the deployment: \x7bmsg\x7d"] ∧
    classify_effect "stage" msg =
      ["The deployment was successfully approved; since the deployment required approval to be staged, it is now staged!"] ∧
    classify_effect "deploy" msg =
      ["The deployment was successfully approved; since the deployment required approval to be deployed, it is now deploying!"] ∧
    classify_effect "reject" msg =
      ["The deployment was successfully rejected!"] ∧
    classify_effect "void" msg =
      ["The deployment was in an invalid state for validation: \x7bmsg\x7d"] ∧
    ∀ effect, effect ∉ (["none", "stage", "deploy", "reject", "void"] : List String) →
      classify_effect effect msg =
        ["Validation effect: " ++ effect, "Validation message: " ++ msg] := by
  refine ⟨rfl, rfl, rfl, rfl, rfl, ?_⟩
  intro effect he
  simp at he
  obtain ⟨h1, h2, h3, h4, h5⟩ := he
  simp [classify_effect, effect_handlers, h1, h2, h3, h4, h5]

theorem C7_witness :
    classify_effect "approve" "m" =
      ["Validation effect: approve", "Validation message: m"] :=
  (C7 "m").2.2.2.2.2 "approve" (by decide)

/-- C8: when the fetched deployment is missing one of the expanded
fields release, device or config_instances, the handler raises a fatal
precondition error and the call trace holds only the retrieve: no
verdict submission happened, and nothing is treated as valid. -/
theorem C8 (deploymentId : String) (retrieve : String → Deployment)
    (validateApi : String → DictVal → EffectResult)
    (h : (retrieve deploymentId).release = none ∨
         (retrieve deploymentId).device = none ∨
         (retrieve deploymentId).config_instances = none) :
    ∃ e, handle_validate_deployment deploymentId retrieve validateApi =
      (.error e, [Call.retrieve deploymentId]) := by
  rcases hr : (retrieve deploymentId).release with _ | r
  · exact ⟨"Deployment release is None",
      by simp [handle_validate_deployment, hr]⟩
  · rcases hc : (retrieve deploymentId).config_instances with _ | cs
    · exact ⟨"Deployment config instances are None",
        by simp [handle_validate_deployment, hr, hc]⟩
    · rcases hd : (retrieve deploymentId).device with _ | d
      · exact ⟨"Deployment device is None",
          by simp [handle_validate_deployment, hr, hc, hd]⟩
      · rcases h with h | h | h <;> simp_all

theorem C8_witness :
    ∃ e, handle_validate_deployment "d1"
        (fun _ => { id := "d1", release := none, device := none,
                    config_instances := none })
        (fun _ _ => { effect := "none", message := "" }) =
      (.error e, [Call.retrieve "d1"]) :=
  C8 "d1" _ _ (Or.inl rfl)

/-- C10: the claim states the none and void narratives never contain the
actual message. The code refutes it at the empty message: the narrative
emitted for the none effect with message empty contains the empty
message as a substring. -/
theorem C10_counterexample :
    ¬ (∀ msg : String, ∀ s ∈ classify_effect "none" msg,
        "\x7bmsg\x7d".toList <:+: s.toList ∧ ¬ (msg.toList <:+: s.toList)) := by
  intro hclaim
  have h := hclaim ""
      "The validation had no effect on the deployment: \x7bmsg\x7d"
      (by simp [classify_effect, effect_handlers])
  exact h.2 (by decide)

/-- C10 amended: for every message, the narratives emitted for the none
and void effects are the fixed template strings, independent of the
message and containing the literal brace-msg-brace placeholder: the
template is never interpolated, so the message appears in the narrative
only when it happens to be a substring of the fixed template. -/
theorem C10_amended (msg : String) :
    classify_effect "none" msg =
      ["The validation had no effect on the deployment: \x7bmsg\x7d"] ∧
    classify_effect "void" msg =
      ["The deployment was in an invalid state for validation: \x7bmsg\x7d"] ∧
    "\x7bmsg\x7d".toList <:+:
      "The validation had no effect on the deployment: \x7bmsg\x7d".toList ∧
    "\x7bmsg\x7d".toList <:+:
      "The deployment was in an invalid state for validation: \x7bmsg\x7d".toList :=
  ⟨rfl, rfl, by decide, by decide⟩
